import Mathlib

/-!
Shallow embedding of the site-generator's deployment client
(`NetlifyClient` in `src/lib/netlify.ts`), its content validator
(`OpenAIClient.validateSiteFiles` in `src/lib/openai.ts`) and the
short-link store (`createShortLink` in `src/lib/db.ts`,
`generateSlug` in `src/lib/utils.ts`).

Conventions of the embedding:
* JavaScript objects holding optional string fields become structures of
  `Option String`; JS string falsiness (`undefined` or `""`) is modelled
  explicitly.
* Network effects are modelled by an environment that scripts the
  provider's responses: the deployment-creation result, one boolean per
  upload call, and a list of poll responses each with the wall-clock
  duration the query takes.
* Errors are the exact `Error.message` strings the code throws,
  carried in `Except String`.
* Wall-clock time and backoff delays are rationals (the JS numbers that
  occur — 1000·1.5^k capped at 8000 — are all exactly representable
  both as IEEE doubles and as rationals, so the model is exact).
-/

deriving instance DecidableEq for Except

/-- Bind of `Except` on a success, as a rewrite rule. -/
theorem ebind_ok {ε α β : Type} (a : α) (f : α → Except ε β) :
    (Except.ok a : Except ε α) >>= f = f a := rfl

/-- Bind of `Except` on an error, as a rewrite rule. -/
theorem ebind_err {ε α β : Type} (e : ε) (f : α → Except ε β) :
    (Except.error e : Except ε α) >>= f = Except.error e := rfl

namespace SiteGen

/-- A Netlify deploy object (`DeployResponse` in `netlify.ts`): the
optional fields are the three URL fields and the state. -/
structure DeployResponse where
  id : String
  required : List String
  ssl_url : Option String := none
  url : Option String := none
  deploy_url : Option String := none
  state : Option String := none
deriving DecidableEq, Repr

/-- JS `a || b` specialised to an optional string on the left: a present,
non-empty string wins, otherwise the fallback is used (`undefined` and
`""` are both falsy). -/
def jsOrStr (a : Option String) (b : String) : String :=
  match a with
  | none => b
  | some s => if s = "" then b else s

/-- The function `NetlifyClient.getDeployUrl`:
`deploy.ssl_url || deploy.url || deploy.deploy_url || ''`. -/
def getDeployUrl (d : DeployResponse) : String :=
  jsOrStr d.ssl_url (jsOrStr d.url (jsOrStr d.deploy_url ""))

/-- One scripted response to a deployment-status query: either the HTTP
request fails (non-`ok` status with a body), or it succeeds and yields a
deploy payload. -/
inductive PollResponse where
  | transportError (status : Nat) (body : String)
  | payload (d : DeployResponse)
deriving DecidableEq, Repr

/-- Outcome of the polling loop `NetlifyClient.pollUntilReady`.
`noScript` is a model artifact only: the loop would issue another query
but the scripted response list is exhausted. -/
inductive PollResult where
  | ready (d : DeployResponse)
  | deployFailed
  | timeout
  | transportFailed (status : Nat) (body : String)
  | noScript
deriving DecidableEq, Repr

/-- One backoff sleep performed by the polling loop: the duration slept
and the time remaining in the wall-clock budget when the sleep began. -/
structure SleepEvent where
  delay : ℚ
  remaining : ℚ
deriving DecidableEq, Repr

/-- Observable trace of one `pollUntilReady` run: its outcome, the
backoff sleeps performed, and the number of status queries issued. -/
structure PollRun where
  result : PollResult
  sleeps : List SleepEvent
  queries : ℕ
deriving DecidableEq, Repr

/-- The backoff update `delay = Math.min(delay * 1.5, maxDelay)` with
`maxDelay = 8000` (`Math.min` written out as a comparison). -/
def nextDelay (d : ℚ) : ℚ :=
  if d * (3 / 2) ≤ 8000 then d * (3 / 2) else 8000

/-- The loop body of `NetlifyClient.pollUntilReady`.  `elapsed` is
`Date.now() - startTime`; each scripted response carries the duration
the query itself consumes.  The loop guard `elapsed < maxT` is checked
before every query; a still-building payload causes a sleep of the
current `delay` (advancing the clock by it) followed by the backoff
update. -/
def pollLoop : List (PollResponse × ℚ) → ℚ → ℚ → ℚ → PollRun
  | [], elapsed, _, maxT =>
    if elapsed < maxT then ⟨.noScript, [], 0⟩ else ⟨.timeout, [], 0⟩
  | (.transportError s b, _) :: _, elapsed, _, maxT =>
    if elapsed < maxT then ⟨.transportFailed s b, [], 1⟩ else ⟨.timeout, [], 0⟩
  | (.payload d, dur) :: rest, elapsed, delay, maxT =>
    if elapsed < maxT then
      if d.state = some "ready" then ⟨.ready d, [], 1⟩
      else if d.state = some "error" ∨ d.state = some "failed" then ⟨.deployFailed, [], 1⟩
      else
        let ev : SleepEvent := ⟨delay, maxT - (elapsed + dur)⟩
        let cont := pollLoop rest (elapsed + dur + delay) (nextDelay delay) maxT
        ⟨cont.result, ev :: cont.sleeps, cont.queries + 1⟩
    else ⟨.timeout, [], 0⟩

/-- Entry point `NetlifyClient.pollUntilReady(deployId, maxTimeoutMs = 90000)`:
starts with `elapsed = 0` and `delay = 1000`. -/
def pollUntilReady (resps : List (PollResponse × ℚ)) (maxT : ℚ := 90000) : PollRun :=
  pollLoop resps 0 1000 maxT

/-- The delay used for the k-th backoff sleep of a run: 1000 ms
initially, then `nextDelay`-iterated. -/
def backoffDelay : ℕ → ℚ
  | 0 => 1000
  | k + 1 => nextDelay (backoffDelay k)

/-- A deploy payload still in the `building` state, used in concrete
runs. -/
def buildingResp : DeployResponse :=
  { id := "d1", required := [], state := some "building" }

/-- Path normalization used throughout `netlify.ts`:
`filename.startsWith('/') ? filename : '/' + filename`. -/
def normalizePath (filename : String) : String :=
  match filename.data with
  | '/' :: _ => filename
  | _ => "/" ++ filename

/-- If `lit` is a literal prefix of `cs`, return the rest of `cs`. -/
def dropLit : List Char → List Char → Option (List Char)
  | cs, [] => some cs
  | [], _ :: _ => none
  | c :: cs, l :: ls => if c = l then dropLit cs ls else none

/-- Does the predicate `p` hold at some position (suffix) of the list,
the empty suffix included? -/
def anyPos (p : List Char → Bool) : List Char → Bool
  | [] => p []
  | c :: cs => p (c :: cs) || anyPos p cs

/-- JS `hay.includes(needle)` — substring test. -/
def containsStr (hay needle : String) : Bool :=
  anyPos (fun cs => (dropLit cs needle.data).isSome) hay.data

/-- The reverse mapping `shaToFiles` built by
`NetlifyClient.uploadRequiredFiles`: all normalized paths of files whose
content hashes to `s`, in file-iteration order.  The hash function
(`this.sha1`) is passed in as `sha`. -/
def shaPaths (sha : String → String) (files : List (String × String)) (s : String) :
    List String :=
  files.filterMap (fun p => if sha p.2 = s then some (normalizePath p.1) else none)

/-- The inner content search of `uploadRequiredFiles`: the first file
content whose hash equals the required fingerprint. -/
def findContent (sha : String → String) (files : List (String × String)) (s : String) :
    Option String :=
  (files.find? (fun p => sha p.2 = s)).map Prod.snd

/-- The upload loop of `NetlifyClient.uploadRequiredFiles`.  `uploads k`
scripts whether the k-th PUT request returns `ok`.  Returns the overall
outcome together with the trace of upload calls actually made
(path, content).  The guard `if (!fileContent) throw` of the source is
a JS falsiness test: it fires both when no file's hash matches
(`fileContent` undefined) and when the matched content is the empty
string — in both cases before any PUT is made. -/
def uploadLoop (sha : String → String) (uploads : ℕ → Bool)
    (files : List (String × String)) :
    ℕ → List String → Except String Unit × List (String × String)
  | _, [] => (.ok (), [])
  | idx, requiredSha :: rest =>
    match shaPaths sha files requiredSha with
    | [] => (.error "NETLIFY_REQUIRED_UPLOAD_FAILED", [])
    | uploadPath :: _ =>
      match findContent sha files requiredSha with
      | none => (.error "NETLIFY_REQUIRED_UPLOAD_FAILED", [])
      | some content =>
        if content = "" then (.error "NETLIFY_REQUIRED_UPLOAD_FAILED", [])
        else if uploads idx then
          let next := uploadLoop sha uploads files (idx + 1) rest
          (next.1, (uploadPath, content) :: next.2)
        else (.error "NETLIFY_REQUIRED_UPLOAD_FAILED", [(uploadPath, content)])

/-- Entry point `NetlifyClient.uploadRequiredFiles(deployId, requiredShaList, files)`. -/
def uploadRequiredFiles (sha : String → String) (uploads : ℕ → Bool)
    (_deployId : String) (requiredShaList : List String)
    (files : List (String × String)) :
    Except String Unit × List (String × String) :=
  uploadLoop sha uploads files 0 requiredShaList

/-- Scripted result of the deployment-creation POST in
`NetlifyClient.createDeployDigest`. -/
inductive CreateResult where
  | httpError (status : Nat) (body : String)
  | ok (r : DeployResponse)
deriving Repr

/-- The provider environment one `deployFiles` run interacts with. -/
structure NetlifyEnv where
  createResult : CreateResult
  uploads : ℕ → Bool
  pollResponses : List (PollResponse × ℚ)

/-- The digest built by `createDeployDigest`: normalized path ↦ hash. -/
def buildDigest (sha : String → String) (files : List (String × String)) :
    List (String × String) :=
  files.map (fun p => (normalizePath p.1, sha p.2))

/-- The function `NetlifyClient.createDeployDigest`: builds the digest, submits it,
and maps HTTP failures exactly as the code does (401/403 ↦
`NETLIFY_AUTH`, 429 ↦ `NETLIFY_RATE_LIMIT`, otherwise the raw
status/body message). -/
def createDeployDigest (sha : String → String) (env : NetlifyEnv)
    (files : List (String × String)) : Except String DeployResponse :=
  let _digest := buildDigest sha files
  match env.createResult with
  | .httpError s b =>
    if s = 401 ∨ s = 403 then .error "NETLIFY_AUTH"
    else if s = 429 then .error "NETLIFY_RATE_LIMIT"
    else .error ("Netlify API error: " ++ toString s ++ " " ++ b)
  | .ok r => .ok r

/-- How each `pollUntilReady` outcome surfaces as a thrown error (or the
ready payload) in the code. -/
def pollResultToExcept : PollResult → Except String DeployResponse
  | .ready d => .ok d
  | .deployFailed => .error "NETLIFY_DEPLOY_FAILED"
  | .timeout => .error "NETLIFY_DEPLOY_TIMEOUT"
  | .transportFailed s b => .error ("Failed to poll deployment: " ++ toString s ++ " " ++ b)
  | .noScript => .error "MODEL_POLL_SCRIPT_EXHAUSTED"

/-- The list of error messages `deployFiles` re-throws unchanged. -/
def knownNetlifyErrors : List String :=
  ["NETLIFY_AUTH", "NETLIFY_RATE_LIMIT", "NETLIFY_REQUIRED_UPLOAD_FAILED",
   "NETLIFY_DEPLOY_TIMEOUT", "NETLIFY_DEPLOY_FAILED", "NETLIFY_NO_URL"]

/-- The `try` body of `NetlifyClient.deployFiles`: digest, conditional
upload, poll, URL extraction, `NETLIFY_NO_URL` on a falsy URL. -/
def deployFilesRaw (sha : String → String) (env : NetlifyEnv)
    (files : List (String × String)) : Except String String := do
  let deployResponse ← createDeployDigest sha env files
  if deployResponse.required.length > 0 then
    (uploadRequiredFiles sha env.uploads deployResponse.id deployResponse.required files).1
  let readyDeploy ← pollResultToExcept (pollUntilReady env.pollResponses).result
  let deployUrl := getDeployUrl readyDeploy
  if deployUrl = "" then .error "NETLIFY_NO_URL" else pure deployUrl

/-- The function `NetlifyClient.deployFiles` with its `catch`: known sentinel
messages are re-thrown unchanged, anything else is wrapped as
`NETLIFY_DEPLOY_ERROR: ${error}` (string interpolation of a JS `Error`
prints as `Error: <message>`). -/
def deployFiles (sha : String → String) (env : NetlifyEnv)
    (files : List (String × String)) : Except String String :=
  match deployFilesRaw sha env files with
  | .ok url => .ok url
  | .error msg =>
    if msg ∈ knownNetlifyErrors then .error msg
    else .error ("NETLIFY_DEPLOY_ERROR: Error: " ++ msg)

/-! ### Content validator (`OpenAIClient.validateSiteFiles`, openai.ts) -/

/-- ASCII lowercasing of one character, as the `i` regex flag
canonicalizes the pattern's ASCII letters. -/
def toLowerAscii (c : Char) : Char :=
  if 'A' ≤ c ∧ c ≤ 'Z' then Char.ofNat (c.toNat + 32) else c

/-- The character list of a string, ASCII-lowercased (the input side of
a case-insensitive regex match whose pattern is ASCII). -/
def lowerData (s : String) : List Char :=
  s.data.map toLowerAscii

/-- Is the character one of the regex `\s` whitespace characters? -/
def isJsWs (c : Char) : Bool :=
  ([9, 10, 11, 12, 13, 32, 160, 0x1680, 0x2028, 0x2029, 0x202F, 0x205F,
    0x3000, 0xFEFF] : List ℕ).contains c.toNat
    || (decide (0x2000 ≤ c.toNat) && decide (c.toNat ≤ 0x200A))

/-- A quote character, as in the regex character class `["']`. -/
def isQuote (c : Char) : Bool :=
  c = '"' || c = '\''

/-- After a quote: does `cs` start with `http://` or `https://`?
(The tail of the regex `["']https?:\/\/` on lowercased input.) -/
def quoteHttp : List Char → Bool
  | [] => false
  | c :: rest =>
    if isQuote c then
      match dropLit rest "http".data with
      | none => false
      | some r2 =>
        (dropLit r2 "://".data).isSome || (dropLit r2 "s://".data).isSome
    else false

/-- Does the regex `(href|src)=["']https?:\/\/` match at this position
of the (already lowercased) character list? -/
def extUrlAt (cs : List Char) : Bool :=
  match dropLit cs "href=".data with
  | some rest => quoteHttp rest
  | none =>
    match dropLit cs "src=".data with
    | some rest => quoteHttp rest
    | none => false

/-- The external-URL test `/(href|src)=["']https?:\/\//i.test(content)`:
the `i` flag is modelled by lowercasing the input (the pattern's letters
are all lowercase ASCII). -/
def hasExternalUrl (content : String) : Bool :=
  anyPos extUrlAt (lowerData content)

/-- After a forbidden call name: optional whitespace then `(`
(the regex tail `\s*\(`). -/
def wsParen (cs : List Char) : Bool :=
  match cs.dropWhile isJsWs with
  | '(' :: _ => true
  | _ => false

/-- Pattern `/eval\s*\(/i` at a position of the lowercased input. -/
def evalCallAt (cs : List Char) : Bool :=
  match dropLit cs "eval".data with
  | some rest => wsParen rest
  | none => false

/-- Pattern `/new\s+Function\s*\(/i` at a position of the lowercased input. -/
def newFunctionCallAt (cs : List Char) : Bool :=
  match dropLit cs "new".data with
  | some rest =>
    match rest with
    | [] => false
    | c :: r2 =>
      isJsWs c &&
        (match dropLit (r2.dropWhile isJsWs) "function".data with
         | some r3 => wsParen r3
         | none => false)
  | none => false

/-- Pattern `/document\.write\s*\(/i` at a position of the lowercased input. -/
def documentWriteCallAt (cs : List Char) : Bool :=
  match dropLit cs "document.write".data with
  | some rest => wsParen rest
  | none => false

/-- Does a file content match one of the three forbidden patterns? -/
def hasForbidden (content : String) : Bool :=
  let l := lowerData content
  anyPos evalCallAt l || anyPos newFunctionCallAt l || anyPos documentWriteCallAt l

/-- JS `Buffer.byteLength(content, 'utf8')` summed over `Object.values`. -/
def totalByteSize (files : List (String × String)) : ℕ :=
  (files.map (fun p => p.2.utf8ByteSize)).sum

/-- The size-limit condition `totalSize > 200 * 1024` of
`validateSiteFiles` (true = the deployment bundle is over the limit and
must be rejected). -/
def sizeExceeded (files : List (String × String)) : Bool :=
  decide (200 * 1024 < totalByteSize files)

/-- JS truthiness of an optional string field: present and non-empty. -/
def jsTruthy (o : Option String) : Bool :=
  match o with
  | none => false
  | some s => s ≠ ""

/-- The function `OpenAIClient.validateSiteFiles`, check for check in source order;
every violation throws the single message `MODEL_INVALID_OUTPUT`. -/
def validateSiteFiles (files : List (String × String)) : Except String Unit :=
  match files.lookup "index.html" with
  | none => .error "MODEL_INVALID_OUTPUT"
  | some indexHtml =>
    if indexHtml = "" then .error "MODEL_INVALID_OUTPUT"
    else if !(containsStr indexHtml "<!doctype html>"
              || containsStr indexHtml "<!DOCTYPE html>") then
      .error "MODEL_INVALID_OUTPUT"
    else if !containsStr indexHtml "<title>" || !containsStr indexHtml "</title>" then
      .error "MODEL_INVALID_OUTPUT"
    else if !containsStr indexHtml "<meta name=\"viewport\"" then
      .error "MODEL_INVALID_OUTPUT"
    else if hasExternalUrl indexHtml then
      .error "MODEL_INVALID_OUTPUT"
    else if jsTruthy (files.lookup "styles.css") && !containsStr indexHtml "styles.css" then
      .error "MODEL_INVALID_OUTPUT"
    else if jsTruthy (files.lookup "script.js") && !containsStr indexHtml "script.js" then
      .error "MODEL_INVALID_OUTPUT"
    else if sizeExceeded files then
      .error "MODEL_INVALID_OUTPUT"
    else if files.any (fun p => hasForbidden p.2) then
      .error "MODEL_INVALID_OUTPUT"
    else .ok ()

/-! ### Short-link store (`createShortLink` in db.ts, `generateSlug` in
utils.ts) -/

/-- The alphabet of `generateSlug`. -/
def slugChars : List Char := "abcdefghijklmnopqrstuvwxyz0123456789".data

/-- JS `generateSlug(length)`: one character per position, chosen by
`chars.charAt(Math.floor(Math.random() * chars.length))`; the random
draws are scripted by `draw` (reduced mod the alphabet size). -/
def generateSlug (draw : ℕ → ℕ) (length : ℕ := 6) : String :=
  String.mk ((List.range length).map (fun i => slugChars.getD (draw i % slugChars.length) 'a'))

/-- The retry loop of `createShortLink`.  `draw a` scripts the
randomness of attempt `a`; `insert` scripts the database insert for a
candidate slug (`.error msg` is a thrown DB error with message `msg`).
Returns the outcome — `(slug, shortUrl)` on success — together with the
trace of candidate slugs actually tried.  The fuel is the number of
attempts remaining (`maxRetries - attempt`). -/
def createLoop (draw : ℕ → ℕ → ℕ) (insert : String → Except String Unit)
    (baseUrl : String) : ℕ → ℕ → Except String (String × String) × List String
  | _, 0 => (.error "Failed to generate unique slug after multiple attempts", [])
  | attempt, fuel + 1 =>
    let slug := generateSlug (draw attempt) (6 + attempt)
    match insert slug with
    | .ok _ => (.ok (slug, baseUrl ++ "/s/" ++ slug), [slug])
    | .error msg =>
      if containsStr msg "UNIQUE constraint failed" then
        let next := createLoop draw insert baseUrl (attempt + 1) fuel
        (next.1, slug :: next.2)
      else (.error msg, [slug])

/-- JS `createShortLink` with default `maxRetries = 5`: attempts 0 to
`maxRetries - 1`, slug length `6 + attempt`. -/
def createShortLink (draw : ℕ → ℕ → ℕ) (insert : String → Except String Unit)
    (_longUrl baseUrl : String) (maxRetries : ℕ := 5) :
    Except String (String × String) × List String :=
  createLoop draw insert baseUrl 0 maxRetries

/-- An optional JS string field that is absent or the empty string —
both falsy. -/
def absentOrEmpty (o : Option String) : Prop :=
  o = none ∨ o = some ""

/-! ### Claims -/

/-- C1: `getDeployUrl` extracts the public URL in the fixed priority
order `ssl_url`, then `url`, then `deploy_url`; and a payload that
reached the ready state carrying none of the three fields makes
`deployFiles` raise `NETLIFY_NO_URL` (the NO_PUBLIC_URL error kind). -/
theorem deploy_url_priority_and_no_url :
    (∀ (d : DeployResponse) (s : String), d.ssl_url = some s → s ≠ "" →
       getDeployUrl d = s) ∧
    (∀ (d : DeployResponse) (s : String), d.ssl_url = none → d.url = some s → s ≠ "" →
       getDeployUrl d = s) ∧
    (∀ (d : DeployResponse) (s : String), d.ssl_url = none → d.url = none →
       d.deploy_url = some s → s ≠ "" → getDeployUrl d = s) ∧
    (∀ (sha : String → String) (env : NetlifyEnv) (files : List (String × String))
       (dr d : DeployResponse) (dur : ℚ) (rest : List (PollResponse × ℚ)),
       env.createResult = .ok dr → dr.required = [] →
       env.pollResponses = (.payload d, dur) :: rest →
       d.state = some "ready" → d.ssl_url = none → d.url = none → d.deploy_url = none →
       deployFiles sha env files = .error "NETLIFY_NO_URL") := by
  refine ⟨?_, ?_, ?_, ?_⟩
  · intro d s hs hne
    simp [getDeployUrl, jsOrStr, hs, hne]
  · intro d s h1 h2 hne
    simp [getDeployUrl, jsOrStr, h1, h2, hne]
  · intro d s h1 h2 h3 hne
    simp [getDeployUrl, jsOrStr, h1, h2, h3, hne]
  · intro sha env files dr d dur rest hc hr hp hst h1 h2 h3
    norm_num [deployFiles, deployFilesRaw, createDeployDigest, hc, hr, hp, pollUntilReady,
      pollLoop, hst, pollResultToExcept, getDeployUrl, jsOrStr, h1, h2, h3,
      knownNetlifyErrors, ebind_ok, ebind_err]

/-- Witness for C1: a payload with both a secure and a plain URL yields
the secure one. -/
theorem deploy_url_priority_and_no_url_witness :
    getDeployUrl
      { id := "d", required := [], ssl_url := some "https://a", url := some "http://b" }
      = "https://a" :=
  deploy_url_priority_and_no_url.1 _ "https://a" rfl (by decide)

/-- C9: a present-but-empty URL field is treated like an absent one:
an empty `ssl_url` (resp. `url`) falls through to the next field, and
if all three fields are absent or empty, `getDeployUrl` returns `""`
and `deployFiles` raises `NETLIFY_NO_URL`. -/
theorem deploy_url_empty_treated_as_absent :
    (∀ d : DeployResponse, d.ssl_url = some "" →
       getDeployUrl d = jsOrStr d.url (jsOrStr d.deploy_url "")) ∧
    (∀ d : DeployResponse, d.url = some "" →
       jsOrStr d.url (jsOrStr d.deploy_url "") = jsOrStr d.deploy_url "") ∧
    (∀ d : DeployResponse, absentOrEmpty d.ssl_url → absentOrEmpty d.url →
       absentOrEmpty d.deploy_url → getDeployUrl d = "") ∧
    (∀ (sha : String → String) (env : NetlifyEnv) (files : List (String × String))
       (dr d : DeployResponse) (dur : ℚ) (rest : List (PollResponse × ℚ)),
       env.createResult = .ok dr → dr.required = [] →
       env.pollResponses = (.payload d, dur) :: rest →
       d.state = some "ready" → absentOrEmpty d.ssl_url → absentOrEmpty d.url →
       absentOrEmpty d.deploy_url →
       deployFiles sha env files = .error "NETLIFY_NO_URL") := by
  refine ⟨?_, ?_, ?_, ?_⟩
  · intro d hs
    simp [getDeployUrl, jsOrStr, hs]
  · intro d hu
    simp [jsOrStr, hu]
  · intro d h1 h2 h3
    rcases h1 with h1 | h1 <;> rcases h2 with h2 | h2 <;> rcases h3 with h3 | h3 <;>
      simp [getDeployUrl, jsOrStr, h1, h2, h3]
  · intro sha env files dr d dur rest hc hr hp hst h1 h2 h3
    have hurl : getDeployUrl d = "" := by
      rcases h1 with h1 | h1 <;> rcases h2 with h2 | h2 <;> rcases h3 with h3 | h3 <;>
        simp [getDeployUrl, jsOrStr, h1, h2, h3]
    norm_num [deployFiles, deployFilesRaw, createDeployDigest, hc, hr, hp, pollUntilReady,
      pollLoop, hst, pollResultToExcept, hurl, knownNetlifyErrors, ebind_ok, ebind_err]

/-- Witness for C9: an empty `ssl_url` falls through to `url`. -/
theorem deploy_url_empty_treated_as_absent_witness :
    getDeployUrl { id := "d", required := [], ssl_url := some "", url := some "http://b" }
      = jsOrStr (some "http://b") (jsOrStr none "") :=
  deploy_url_empty_treated_as_absent.1
    { id := "d", required := [], ssl_url := some "", url := some "http://b" } rfl

/-- C10: a non-positive wall-clock budget makes `pollUntilReady` raise
`NETLIFY_DEPLOY_TIMEOUT` (DEPLOY_TIMEOUT) immediately: no status query
is issued and no sleep is performed. -/
theorem pollUntilReady_nonpositive_budget_times_out :
    ∀ (resps : List (PollResponse × ℚ)) (maxT : ℚ), maxT ≤ 0 →
      pollUntilReady resps maxT = ⟨.timeout, [], 0⟩ ∧
      pollResultToExcept (pollUntilReady resps maxT).result
        = .error "NETLIFY_DEPLOY_TIMEOUT" := by
  intro resps maxT h
  have hng : ¬((0 : ℚ) < maxT) := by
    exact not_lt.mpr h
  cases resps with
  | nil => simp [pollUntilReady, pollLoop, hng, pollResultToExcept]
  | cons head rest =>
    obtain ⟨r, dur⟩ := head
    cases r <;> simp [pollUntilReady, pollLoop, hng, pollResultToExcept]

/-- Witness for C10: budget 0 with a scripted response available still
times out with zero queries and zero sleeps. -/
theorem pollUntilReady_nonpositive_budget_times_out_witness :
    pollUntilReady [(.payload buildingResp, 0)] 0 = ⟨.timeout, [], 0⟩ ∧
    pollResultToExcept (pollUntilReady [(.payload buildingResp, 0)] 0).result
      = .error "NETLIFY_DEPLOY_TIMEOUT" :=
  pollUntilReady_nonpositive_budget_times_out [(.payload buildingResp, 0)] 0 (by norm_num)

/-- Cap: every delay in the backoff sequence is at most 8000 ms. -/
theorem backoffDelay_le_cap : ∀ k, backoffDelay k ≤ 8000 := by
  intro k
  induction k with
  | zero => norm_num [backoffDelay]
  | succ n ih =>
    rw [backoffDelay, nextDelay]
    split_ifs with h
    · exact h
    · norm_num

/-- The k-th sleep of a polling run started with delay
`backoffDelay k0` has delay `backoffDelay (k0 + k)`. -/
theorem pollLoop_sleep_delay :
    ∀ (resps : List (PollResponse × ℚ)) (elapsed maxT : ℚ) (k0 k : ℕ) (ev : SleepEvent),
      (pollLoop resps elapsed (backoffDelay k0) maxT).sleeps.get? k = some ev →
      ev.delay = backoffDelay (k0 + k) := by
  intro resps
  induction resps with
  | nil =>
    intro elapsed maxT k0 k ev h
    simp only [pollLoop] at h
    split at h <;> simp at h
  | cons head rest ih =>
    intro elapsed maxT k0 k ev h
    obtain ⟨r, dur⟩ := head
    match r with
    | .transportError s b =>
      simp only [pollLoop] at h
      split at h <;> simp at h
    | .payload d =>
      simp only [pollLoop] at h
      split at h
      · split at h
        · simp at h
        · split at h
          · simp at h
          · simp only at h
            match k with
            | 0 =>
              simp at h
              rw [← h]
              simp [Nat.add_zero]
            | k' + 1 =>
              simp only [List.get?] at h
              have := ih (elapsed + dur + backoffDelay k0) maxT (k0 + 1) k' ev
                (by rw [show nextDelay (backoffDelay k0) = backoffDelay (k0 + 1) from rfl] at h
                    exact h)
              rw [this]
              congr 1
              omega
      · simp at h

/-- C2 (amended): in every run of `pollUntilReady` the k-th sleep delay
is exactly `backoffDelay k` — 1000 ms initially, multiplied by 1.5
after every retried query, capped at 8000 ms.  The sleep is *not*
truncated to the remaining wall-clock budget (see the counterexample
theorem `poll_sleep_can_exceed_remaining_budget`). -/
theorem poll_backoff_delay_sequence :
    ∀ (resps : List (PollResponse × ℚ)) (maxT : ℚ) (k : ℕ) (ev : SleepEvent),
      (pollUntilReady resps maxT).sleeps.get? k = some ev →
      ev.delay = backoffDelay k ∧ ev.delay ≤ 8000 := by
  intro resps maxT k ev h
  have h0 : backoffDelay 0 = 1000 := rfl
  rw [pollUntilReady, ← h0] at h
  have := pollLoop_sleep_delay resps 0 maxT 0 k ev h
  rw [Nat.zero_add] at this
  exact ⟨this, this ▸ backoffDelay_le_cap k⟩

/-- Witness for C2: the first sleep of a run with one still-building
response has delay `backoffDelay 0 = 1000 ≤ 8000`. -/
theorem poll_backoff_delay_sequence_witness :
    (1000 : ℚ) = backoffDelay 0 ∧ (1000 : ℚ) ≤ 8000 :=
  poll_backoff_delay_sequence [(.payload buildingResp, 0)] 90000 0 ⟨1000, 90000⟩
    (by norm_num [pollUntilReady, pollLoop, nextDelay, buildingResp]; decide)

/-- Counterexample for C2 as stated: with a 1500 ms budget and two
still-building responses, the second sleep lasts 1500 ms although only
500 ms of the budget remain — the sleep exceeds the remaining time. -/
theorem poll_sleep_can_exceed_remaining_budget :
    (pollUntilReady [(.payload buildingResp, 0), (.payload buildingResp, 0)] 1500).sleeps.get? 1
      = some ⟨1500, 500⟩ ∧ ¬((1500 : ℚ) ≤ (500 : ℚ)) := by
  constructor
  · norm_num [pollUntilReady, pollLoop, nextDelay, buildingResp]
    decide
  · norm_num

/-- A transport-level poll failure message is never one of the sentinel
messages that `deployFiles` re-throws unchanged. -/
theorem pollFailMsg_not_known (s : ℕ) (b : String) :
    ("Failed to poll deployment: " ++ toString s ++ " " ++ b) ∉ knownNetlifyErrors := by
  intro h
  simp only [knownNetlifyErrors, List.mem_cons, List.not_mem_nil, or_false] at h
  rcases h with h | h | h | h | h | h <;>
  · have hd := congrArg (fun z => z.data.head?) h
    simp [String.data_append] at hd

/-- C3 (amended): a status query failing at the transport level aborts
polling immediately — no sleep, no retry, exactly one query regardless
of what further responses would have said (only still-building
responses are retried) — but the failure reaches the caller of
`deployFiles` wrapped into the generic `NETLIFY_DEPLOY_ERROR` kind
(carrying the original status/body), not re-thrown unchanged as the raw
provider-request failure. -/
theorem poll_transport_failure_immediate_but_wrapped :
    (∀ (s : ℕ) (b : String) (dur : ℚ) (rest : List (PollResponse × ℚ))
       (elapsed delay maxT : ℚ), elapsed < maxT →
       pollLoop ((.transportError s b, dur) :: rest) elapsed delay maxT
         = ⟨.transportFailed s b, [], 1⟩) ∧
    (∀ (sha : String → String) (env : NetlifyEnv) (files : List (String × String))
       (dr : DeployResponse) (s : ℕ) (b : String) (dur : ℚ)
       (rest : List (PollResponse × ℚ)),
       env.createResult = .ok dr → dr.required = [] →
       env.pollResponses = (.transportError s b, dur) :: rest →
       deployFiles sha env files
         = .error ("NETLIFY_DEPLOY_ERROR: Error: "
             ++ ("Failed to poll deployment: " ++ toString s ++ " " ++ b))) := by
  constructor
  · intro s b dur rest elapsed delay maxT hlt
    simp [pollLoop, hlt]
  · intro sha env files dr s b dur rest hc hr hp
    have hnk := pollFailMsg_not_known s b
    norm_num [deployFiles, deployFilesRaw, createDeployDigest, hc, hr, hp, pollUntilReady,
      pollLoop, pollResultToExcept, ebind_ok, ebind_err, hnk]

/-- Witness for C3 (amended): a concrete 500-status poll failure is
wrapped into `NETLIFY_DEPLOY_ERROR`. -/
theorem poll_transport_failure_immediate_but_wrapped_witness :
    deployFiles (fun s => s)
        { createResult := .ok { id := "d1", required := [] },
          uploads := fun _ => true,
          pollResponses := [(.transportError 500 "boom", 0)] } []
      = .error ("NETLIFY_DEPLOY_ERROR: Error: "
          ++ ("Failed to poll deployment: " ++ toString 500 ++ " " ++ "boom")) :=
  poll_transport_failure_immediate_but_wrapped.2 (fun s => s)
    { createResult := .ok { id := "d1", required := [] },
      uploads := fun _ => true,
      pollResponses := [(.transportError 500 "boom", 0)] } []
    { id := "d1", required := [] } 500 "boom" 0 [] rfl rfl rfl

/-- Counterexample for C3 as stated: the transport-level poll failure
does not reach the caller of `deployFiles` unchanged as the raw
provider-request-failure message; it arrives wrapped in
`NETLIFY_DEPLOY_ERROR`. -/
theorem poll_transport_failure_wrapped_cex :
    deployFiles (fun s => s)
        { createResult := .ok { id := "d1", required := [] },
          uploads := fun _ => true,
          pollResponses := [(.transportError 500 "boom", 0)] } []
      = .error "NETLIFY_DEPLOY_ERROR: Error: Failed to poll deployment: 500 boom" ∧
    deployFiles (fun s => s)
        { createResult := .ok { id := "d1", required := [] },
          uploads := fun _ => true,
          pollResponses := [(.transportError 500 "boom", 0)] } []
      ≠ .error "Failed to poll deployment: 500 boom" := by
  constructor <;> decide

/-- Case analysis of the validator: it either rejects with the single
`MODEL_INVALID_OUTPUT` message, or accepts — and acceptance pins down
the checks that must have passed (the ones the claims are about). -/
theorem validateSiteFiles_cases (files : List (String × String)) :
    validateSiteFiles files = .error "MODEL_INVALID_OUTPUT" ∨
    (validateSiteFiles files = .ok () ∧ ∃ ih,
       files.lookup "index.html" = some ih ∧
       (containsStr ih "<!doctype html>" || containsStr ih "<!DOCTYPE html>") = true ∧
       hasExternalUrl ih = false ∧
       sizeExceeded files = false) := by
  cases hl : files.lookup "index.html" with
  | none =>
    exact Or.inl (by simp [validateSiteFiles, hl])
  | some ih =>
    simp only [validateSiteFiles, hl]
    split_ifs with h1 h2 h3 h4 h5 h6 h7 h8 h9 <;>
      try (exact Or.inl rfl)
    refine Or.inr ⟨rfl, ih, rfl, ?_, ?_, ?_⟩
    · cases hA : containsStr ih "<!doctype html>" <;>
        cases hB : containsStr ih "<!DOCTYPE html>" <;> simp_all
    · simpa using h5
    · simpa using h8

/-- C5 (amended): the doctype check of the validator accepts exactly
the two literal spellings `<!doctype html>` and `<!DOCTYPE html>` as
substrings of the entry document — an entry document containing
neither (so in particular one with no doctype at all, or one with any
other casing such as `<!DocType HTML>`) is rejected — and each of the
two accepted spellings passes. -/
theorem doctype_check_exact_casings :
    (∀ (files : List (String × String)) (ih : String),
       files.lookup "index.html" = some ih →
       containsStr ih "<!doctype html>" = false →
       containsStr ih "<!DOCTYPE html>" = false →
       validateSiteFiles files = .error "MODEL_INVALID_OUTPUT") ∧
    (validateSiteFiles
       [("index.html", "<!doctype html><title>t</title><meta name=\"viewport\">")]
       = .ok ()) ∧
    (validateSiteFiles
       [("index.html", "<!DOCTYPE html><title>t</title><meta name=\"viewport\">")]
       = .ok ()) := by
  refine ⟨?_, by decide, by decide⟩
  intro files ih hl h1 h2
  rcases validateSiteFiles_cases files with h | ⟨_, ih', hl', hdoc, _, _⟩
  · exact h
  · rw [hl] at hl'
    injection hl' with he
    subst he
    rw [h1, h2] at hdoc
    simp at hdoc

/-- Witness for C5 (amended): an entry document with no doctype at all
is rejected. -/
theorem doctype_check_exact_casings_witness :
    validateSiteFiles [("index.html", "<title>t</title><meta name=\"viewport\">")]
      = .error "MODEL_INVALID_OUTPUT" :=
  doctype_check_exact_casings.1 _ "<title>t</title><meta name=\"viewport\">"
    rfl (by decide) (by decide)

/-- Counterexample for C5 as stated: `<!DocType HTML>` is a casing of
the HTML5 doctype token — its ASCII lowercasing contains
`<!doctype html>` — yet the validator rejects the entry document, so
the doctype check is not a case-insensitive match. -/
theorem doctype_mixed_case_rejected_cex :
    validateSiteFiles
        [("index.html", "<!DocType HTML><title>t</title><meta name=\"viewport\">")]
      = .error "MODEL_INVALID_OUTPUT" ∧
    anyPos (fun cs => (dropLit cs "<!doctype html>".data).isSome)
        (lowerData "<!DocType HTML><title>t</title><meta name=\"viewport\">") = true := by
  constructor <;> decide

/-- C4 (amended): only the entry document is scanned for absolute
`http(s)` URLs in `href=`/`src=` attributes — if the entry document
matches the pattern the set is rejected with the single
INVALID_GENERATED_CONTENT error; a match inside an auxiliary file does
not by itself cause rejection (see the counterexample theorem). -/
theorem external_url_check_entry_document_only :
    ∀ (files : List (String × String)) (ih : String),
      files.lookup "index.html" = some ih →
      hasExternalUrl ih = true →
      validateSiteFiles files = .error "MODEL_INVALID_OUTPUT" := by
  intro files ih hl hurl
  rcases validateSiteFiles_cases files with h | ⟨_, ih', hl', _, hext, _⟩
  · exact h
  · rw [hl] at hl'
    injection hl' with he
    subst he
    rw [hurl] at hext
    simp at hext

/-- Witness for C4 (amended): an entry document with an absolute URL in
a `src` attribute is rejected. -/
theorem external_url_check_entry_document_only_witness :
    validateSiteFiles
        [("index.html",
          "<!doctype html><title>t</title><meta name=\"viewport\"><img src=\"https://x\">")]
      = .error "MODEL_INVALID_OUTPUT" :=
  external_url_check_entry_document_only _
    "<!doctype html><title>t</title><meta name=\"viewport\"><img src=\"https://x\">"
    rfl (by decide)

/-- Counterexample for C4 as stated: a file set whose auxiliary
`styles.css` matches the external-URL pattern is nevertheless accepted
by the validator — files other than the entry document are not checked. -/
theorem external_url_in_aux_file_accepted_cex :
    validateSiteFiles
        [("index.html",
          "<!doctype html><title>t</title><meta name=\"viewport\"><link href=\"styles.css\">"),
         ("styles.css", "src=\"https://x\"")]
      = .ok () ∧
    hasExternalUrl "src=\"https://x\"" = true := by
  constructor <;> decide

/-- C7: the validator's size check is inclusive at the limit — a total
UTF-8 byte size of exactly 200·1024 does not trip the size condition,
while one byte more makes the validator reject the file set. -/
theorem size_limit_inclusive_at_boundary :
    (∀ files : List (String × String),
       totalByteSize files = 200 * 1024 → sizeExceeded files = false) ∧
    (∀ files : List (String × String),
       totalByteSize files = 200 * 1024 + 1 →
       validateSiteFiles files = .error "MODEL_INVALID_OUTPUT") := by
  constructor
  · intro files h
    simp [sizeExceeded, h]
  · intro files h
    rcases validateSiteFiles_cases files with hc | ⟨_, _, _, _, _, hsize⟩
    · exact hc
    · rw [sizeExceeded, h] at hsize
      norm_num at hsize

/-- A string of `n` repetitions of the one-byte character `a`. -/
def padContent (n : ℕ) : String := String.mk (List.replicate n 'a')

/-- Padding of length `n` occupies exactly `n` UTF-8 bytes. -/
theorem padContent_size (n : ℕ) : (padContent n).utf8ByteSize = n := by
  induction n with
  | zero => rfl
  | succ k ih =>
    simp only [padContent, List.replicate_succ]
    show String.utf8ByteSize ⟨'a' :: List.replicate k 'a'⟩ = k + 1
    have h2 : String.utf8ByteSize ⟨'a' :: List.replicate k 'a'⟩
        = String.utf8ByteSize ⟨List.replicate k 'a'⟩ + 1 := rfl
    rw [h2]
    simpa [padContent] using ih

/-- Total byte size of a singleton file set of padding. -/
theorem totalByteSize_pad (n : ℕ) :
    totalByteSize [("index.html", padContent n)] = n := by
  simp [totalByteSize, padContent_size]

/-- Witness for C7: a concrete file set of exactly 200·1024 bytes does
not trip the size condition; one of 200·1024 + 1 bytes is rejected. -/
theorem size_limit_inclusive_at_boundary_witness :
    sizeExceeded [("index.html", padContent (200 * 1024))] = false ∧
    validateSiteFiles [("index.html", padContent (200 * 1024 + 1))]
      = .error "MODEL_INVALID_OUTPUT" :=
  ⟨size_limit_inclusive_at_boundary.1 _ (totalByteSize_pad _),
   size_limit_inclusive_at_boundary.2 _ (totalByteSize_pad _)⟩

/-- If some file's content hashes to `s`, the content search of the
upload loop finds one. -/
theorem findContent_of_shaPaths (sha : String → String)
    (files : List (String × String)) (s : String) :
    shaPaths sha files s ≠ [] → ∃ c, findContent sha files s = some c := by
  induction files with
  | nil => simp [shaPaths]
  | cons p rest ih =>
    intro h
    by_cases hp : sha p.2 = s
    · refine ⟨p.2, ?_⟩
      simp [findContent, List.find?_cons, hp]
    · have h' : shaPaths sha rest s ≠ [] := by
        simpa [shaPaths, hp] using h
      obtain ⟨c, hc⟩ := ih h'
      refine ⟨c, ?_⟩
      simpa [findContent, List.find?_cons, hp] using hc

/-- Fail-fast behaviour of the upload loop, at an arbitrary loop
position `idx`: if the fingerprints before position `k` all resolve to
a truthy (non-empty) content and upload successfully, then at position
`k` (a) a fingerprint matching no file aborts with
`NETLIFY_REQUIRED_UPLOAD_FAILED` after exactly `k` upload calls,
(b) a fingerprint whose matched content is the empty string — the JS
falsy guard `if (!fileContent)` — aborts likewise with `k` calls and no
PUT for it, and (c) a failing upload aborts after exactly `k + 1`
calls. -/
theorem uploadLoop_fail_fast (sha : String → String) (uploads : ℕ → Bool)
    (files : List (String × String)) :
    ∀ (k : ℕ) (req : List String) (idx : ℕ), k < req.length →
      (∀ j, j < k → shaPaths sha files (req.getD j "") ≠ [] ∧
         findContent sha files (req.getD j "") ≠ some "" ∧ uploads (idx + j) = true) →
      ((shaPaths sha files (req.getD k "") = [] →
         (uploadLoop sha uploads files idx req).1 = .error "NETLIFY_REQUIRED_UPLOAD_FAILED" ∧
         (uploadLoop sha uploads files idx req).2.length = k) ∧
       (shaPaths sha files (req.getD k "") ≠ [] →
         findContent sha files (req.getD k "") = some "" →
         (uploadLoop sha uploads files idx req).1 = .error "NETLIFY_REQUIRED_UPLOAD_FAILED" ∧
         (uploadLoop sha uploads files idx req).2.length = k) ∧
       (shaPaths sha files (req.getD k "") ≠ [] →
         findContent sha files (req.getD k "") ≠ some "" → uploads (idx + k) = false →
         (uploadLoop sha uploads files idx req).1 = .error "NETLIFY_REQUIRED_UPLOAD_FAILED" ∧
         (uploadLoop sha uploads files idx req).2.length = k + 1)) := by
  intro k
  induction k with
  | zero =>
    intro req idx hk _
    match req with
    | r :: rest =>
      refine ⟨?_, ?_, ?_⟩
      · intro hmiss
        rw [List.getD_cons_zero] at hmiss
        simp [uploadLoop, hmiss]
      · intro hsome hempty
        rw [List.getD_cons_zero] at hsome hempty
        cases hsp : shaPaths sha files r with
        | nil => exact absurd hsp hsome
        | cons p ps =>
          simp [uploadLoop, hsp, hempty]
      · intro hsome hne hup
        rw [List.getD_cons_zero] at hsome hne
        rw [Nat.add_zero] at hup
        cases hsp : shaPaths sha files r with
        | nil => exact absurd hsp hsome
        | cons p ps =>
          obtain ⟨c, hc⟩ := findContent_of_shaPaths sha files r hsome
          have hcne : ¬(c = "") := by
            intro h
            rw [h] at hc
            exact hne hc
          simp [uploadLoop, hsp, hc, hcne, hup]
  | succ k ihk =>
    intro req idx hk hprev
    match req with
    | r :: rest =>
      have h0 := hprev 0 (Nat.succ_pos k)
      rw [List.getD_cons_zero, Nat.add_zero] at h0
      obtain ⟨h0p, h0e, h0u⟩ := h0
      cases hsp : shaPaths sha files r with
      | nil => exact absurd hsp h0p
      | cons p ps =>
        obtain ⟨c, hc⟩ := findContent_of_shaPaths sha files r h0p
        have hcne : ¬(c = "") := by
          intro h
          rw [h] at hc
          exact h0e hc
        have heq : uploadLoop sha uploads files idx (r :: rest)
            = ((uploadLoop sha uploads files (idx + 1) rest).1,
               (p, c) :: (uploadLoop sha uploads files (idx + 1) rest).2) := by
          simp [uploadLoop, hsp, hc, hcne, h0u]
        have hprev' : ∀ j, j < k →
            shaPaths sha files (rest.getD j "") ≠ [] ∧
            findContent sha files (rest.getD j "") ≠ some "" ∧
            uploads (idx + 1 + j) = true := by
          intro j hj
          have hh := hprev (j + 1) (by omega)
          rw [List.getD_cons_succ] at hh
          refine ⟨hh.1, hh.2.1, ?_⟩
          have harith : idx + (j + 1) = idx + 1 + j := by omega
          rw [← harith]
          exact hh.2.2
        have ih := ihk rest (idx + 1) (by simpa using hk) hprev'
        refine ⟨?_, ?_, ?_⟩
        · intro hmiss
          rw [List.getD_cons_succ] at hmiss
          have hres := ih.1 hmiss
          rw [heq]
          exact ⟨hres.1, by simp [hres.2]⟩
        · intro hsome hempty
          rw [List.getD_cons_succ] at hsome hempty
          have hres := ih.2.1 hsome hempty
          rw [heq]
          exact ⟨hres.1, by simp [hres.2]⟩
        · intro hsome hne hup
          rw [List.getD_cons_succ] at hsome hne
          have hup' : uploads (idx + 1 + k) = false := by
            have harith : idx + (k + 1) = idx + 1 + k := by omega
            rw [← harith]
            exact hup
          have hres := ih.2.2 hsome hne hup'
          rw [heq]
          exact ⟨hres.1, by simp [hres.2]⟩

/-- C6: `uploadRequiredFiles` fails fast with
`NETLIFY_REQUIRED_UPLOAD_FAILED` (UPLOAD_FAILED).  Provided the
fingerprints before position `k` of the provider-given required list
each resolve to a truthy (non-empty) content and upload successfully:
a fingerprint at position `k` matching no file's computed fingerprint
aborts with exactly `k` upload calls — none for that fingerprint and
none for any later one; a fingerprint whose only matching content is
the empty string trips the same falsy guard `if (!fileContent)` and
aborts with `k` calls, again without a PUT for it; and a non-success
upload response at position `k` aborts with exactly `k + 1` calls (the
failing one included, none later). -/
theorem uploadRequiredFiles_fail_fast :
    ∀ (sha : String → String) (uploads : ℕ → Bool) (deployId : String)
      (files : List (String × String)) (req : List String) (k : ℕ),
      k < req.length →
      (∀ j, j < k → shaPaths sha files (req.getD j "") ≠ [] ∧
         findContent sha files (req.getD j "") ≠ some "" ∧ uploads j = true) →
      ((shaPaths sha files (req.getD k "") = [] →
         (uploadRequiredFiles sha uploads deployId req files).1
           = .error "NETLIFY_REQUIRED_UPLOAD_FAILED" ∧
         (uploadRequiredFiles sha uploads deployId req files).2.length = k) ∧
       (shaPaths sha files (req.getD k "") ≠ [] →
         findContent sha files (req.getD k "") = some "" →
         (uploadRequiredFiles sha uploads deployId req files).1
           = .error "NETLIFY_REQUIRED_UPLOAD_FAILED" ∧
         (uploadRequiredFiles sha uploads deployId req files).2.length = k) ∧
       (shaPaths sha files (req.getD k "") ≠ [] →
         findContent sha files (req.getD k "") ≠ some "" → uploads k = false →
         (uploadRequiredFiles sha uploads deployId req files).1
           = .error "NETLIFY_REQUIRED_UPLOAD_FAILED" ∧
         (uploadRequiredFiles sha uploads deployId req files).2.length = k + 1)) := by
  intro sha uploads deployId files req k hk hprev
  have hprev' : ∀ j, j < k → shaPaths sha files (req.getD j "") ≠ [] ∧
      findContent sha files (req.getD j "") ≠ some "" ∧ uploads (0 + j) = true := by
    intro j hj
    simpa using hprev j hj
  have h := uploadLoop_fail_fast sha uploads files k req 0 hk hprev'
  rw [Nat.zero_add] at h
  exact h

/-- Witness for C6: a required fingerprint matching no file aborts the
upload negotiation with zero upload calls, and so does one whose only
matching file content is the empty string (the falsy-content guard). -/
theorem uploadRequiredFiles_fail_fast_witness :
    ((uploadRequiredFiles (fun s => s) (fun _ => true) "d1" ["y"] [("a.txt", "x")]).1
       = .error "NETLIFY_REQUIRED_UPLOAD_FAILED" ∧
     (uploadRequiredFiles (fun s => s) (fun _ => true) "d1" ["y"]
        [("a.txt", "x")]).2.length = 0) ∧
    ((uploadRequiredFiles (fun s => s) (fun _ => true) "d1" [""] [("a.txt", "")]).1
       = .error "NETLIFY_REQUIRED_UPLOAD_FAILED" ∧
     (uploadRequiredFiles (fun s => s) (fun _ => true) "d1" [""]
        [("a.txt", "")]).2.length = 0) :=
  ⟨(uploadRequiredFiles_fail_fast (fun s => s) (fun _ => true) "d1" [("a.txt", "x")] ["y"] 0
      (by decide) (fun j hj => absurd hj (by omega))).1 (by decide),
   (uploadRequiredFiles_fail_fast (fun s => s) (fun _ => true) "d1" [("a.txt", "")] [""] 0
      (by decide) (fun j hj => absurd hj (by omega))).2.1 (by decide) (by decide)⟩

/-- The candidate slug generated at attempt `k` of `createShortLink`:
`generateSlug(6 + attempt)`. -/
def slugAt (draw : ℕ → ℕ → ℕ) (k : ℕ) : String :=
  generateSlug (draw k) (6 + k)

/-- The slug generator produces a string of exactly the requested length. -/
theorem generateSlug_length (draw : ℕ → ℕ) (n : ℕ) :
    (generateSlug draw n).length = n := by
  simp [generateSlug, String.length]

/-- One unfolding step of the retry loop. -/
theorem createLoop_succ (draw : ℕ → ℕ → ℕ) (insert : String → Except String Unit)
    (baseUrl : String) (a f : ℕ) :
    createLoop draw insert baseUrl a (f + 1)
      = (match insert (generateSlug (draw a) (6 + a)) with
         | .ok _ =>
           (.ok (generateSlug (draw a) (6 + a),
              baseUrl ++ "/s/" ++ generateSlug (draw a) (6 + a)),
            [generateSlug (draw a) (6 + a)])
         | .error msg =>
           if containsStr msg "UNIQUE constraint failed" = true then
             ((createLoop draw insert baseUrl (a + 1) f).1,
              generateSlug (draw a) (6 + a) :: (createLoop draw insert baseUrl (a + 1) f).2)
           else (.error msg, [generateSlug (draw a) (6 + a)])) := rfl

/-- The k-th slug tried by the retry loop started at attempt `a` is the
attempt-`(a + k)` candidate, of length `6 + (a + k)`. -/
theorem createLoop_trace_len (draw : ℕ → ℕ → ℕ) (insert : String → Except String Unit)
    (baseUrl : String) :
    ∀ (fuel a k : ℕ) (s : String),
      (createLoop draw insert baseUrl a fuel).2.get? k = some s →
      s.length = 6 + (a + k) := by
  intro fuel
  induction fuel with
  | zero =>
    intro a k s h
    simp [createLoop] at h
  | succ f ih =>
    intro a k s h
    cases hins : insert (generateSlug (draw a) (6 + a)) with
    | ok u =>
      simp only [createLoop_succ, hins] at h
      match k with
      | 0 =>
        simp at h
        rw [← h, generateSlug_length]
        omega
      | k' + 1 => simp at h
    | error msg =>
      simp only [createLoop_succ, hins] at h
      by_cases hc : containsStr msg "UNIQUE constraint failed" = true
      · simp only [hc, if_pos rfl] at h
        match k with
        | 0 =>
          simp at h
          rw [← h, generateSlug_length]
          omega
        | k' + 1 =>
          simp only [List.get?] at h
          have := ih (a + 1) k' s h
          rw [this]
          omega
      · rw [if_neg hc] at h
        match k with
        | 0 =>
          simp at h
          rw [← h, generateSlug_length]
          omega
        | k' + 1 => simp at h

/-- A non-uniqueness insert error at attempt `a + k`, after `k`
uniqueness conflicts, stops the loop immediately with that error. -/
theorem createLoop_stops_on_other_error (draw : ℕ → ℕ → ℕ)
    (insert : String → Except String Unit) (baseUrl : String) :
    ∀ (k fuel a : ℕ) (msg : String), k < fuel →
      (∀ j, j < k → ∃ m, insert (slugAt draw (a + j)) = .error m ∧
         containsStr m "UNIQUE constraint failed" = true) →
      insert (slugAt draw (a + k)) = .error msg →
      containsStr msg "UNIQUE constraint failed" = false →
      (createLoop draw insert baseUrl a fuel).1 = .error msg ∧
      (createLoop draw insert baseUrl a fuel).2.length = k + 1 := by
  intro k
  induction k with
  | zero =>
    intro fuel a msg hk _ hins hnc
    match fuel, hk with
    | f + 1, _ =>
      rw [Nat.add_zero] at hins
      have e1 : insert (generateSlug (draw a) (6 + a)) = .error msg := hins
      have hnc' : ¬(containsStr msg "UNIQUE constraint failed" = true) := by
        simp [hnc]
      simp [createLoop_succ, e1, hnc']
  | succ k ihk =>
    intro fuel a msg hk hprev hins hnc
    match fuel, hk with
    | f + 1, _ =>
      obtain ⟨m, hm, hmc⟩ := hprev 0 (Nat.succ_pos k)
      rw [Nat.add_zero] at hm
      have e1 : insert (generateSlug (draw a) (6 + a)) = .error m := hm
      have hins' : insert (slugAt draw (a + 1 + k)) = .error msg := by
        have harith : a + (k + 1) = a + 1 + k := by omega
        rw [← harith]
        exact hins
      have hprev' : ∀ j, j < k → ∃ m, insert (slugAt draw (a + 1 + j)) = .error m ∧
          containsStr m "UNIQUE constraint failed" = true := by
        intro j hj
        have harith : a + 1 + j = a + (j + 1) := by omega
        rw [harith]
        exact hprev (j + 1) (by omega)
      have ihr := ihk f (a + 1) msg (by omega) hprev' hins' hnc
      refine ⟨?_, ?_⟩ <;> simp [createLoop_succ, e1, hmc, ihr.1, ihr.2]

/-- If every attempt hits a uniqueness conflict, the loop exhausts its
fuel and fails permanently, having tried `fuel` slugs. -/
theorem createLoop_exhausts (draw : ℕ → ℕ → ℕ) (insert : String → Except String Unit)
    (baseUrl : String) :
    ∀ (fuel a : ℕ),
      (∀ j, j < fuel → ∃ m, insert (slugAt draw (a + j)) = .error m ∧
         containsStr m "UNIQUE constraint failed" = true) →
      (createLoop draw insert baseUrl a fuel).1
        = .error "Failed to generate unique slug after multiple attempts" ∧
      (createLoop draw insert baseUrl a fuel).2.length = fuel := by
  intro fuel
  induction fuel with
  | zero =>
    intro a _
    simp [createLoop]
  | succ f ih =>
    intro a hall
    obtain ⟨m, hm, hmc⟩ := hall 0 (Nat.succ_pos f)
    rw [Nat.add_zero] at hm
    have e1 : insert (generateSlug (draw a) (6 + a)) = .error m := hm
    have hall' : ∀ j, j < f → ∃ m, insert (slugAt draw (a + 1 + j)) = .error m ∧
        containsStr m "UNIQUE constraint failed" = true := by
      intro j hj
      have harith : a + 1 + j = a + (j + 1) := by omega
      rw [harith]
      exact hall (j + 1) (by omega)
    have ihr := ih (a + 1) hall'
    refine ⟨?_, ?_⟩ <;> simp [createLoop_succ, e1, hmc, ihr.1, ihr.2]

/-- C8: `createShortLink` tries a slug of length 6 first and length
`6 + k` on the k-th retry; only a uniqueness-constraint conflict causes
a retry (any other insert error propagates immediately, ending the
attempts); and once the default budget of 5 attempts is exhausted by
conflicts it fails permanently instead of returning a slug. -/
theorem createShortLink_retry_spec :
    ∀ (draw : ℕ → ℕ → ℕ) (insert : String → Except String Unit) (longUrl baseUrl : String),
      (∀ (k : ℕ) (s : String),
         (createShortLink draw insert longUrl baseUrl).2.get? k = some s →
         s.length = 6 + k) ∧
      (∀ (k : ℕ) (msg : String), k < 5 →
         (∀ j, j < k → ∃ m, insert (slugAt draw j) = .error m ∧
            containsStr m "UNIQUE constraint failed" = true) →
         insert (slugAt draw k) = .error msg →
         containsStr msg "UNIQUE constraint failed" = false →
         (createShortLink draw insert longUrl baseUrl).1 = .error msg ∧
         (createShortLink draw insert longUrl baseUrl).2.length = k + 1) ∧
      ((∀ j, j < 5 → ∃ m, insert (slugAt draw j) = .error m ∧
           containsStr m "UNIQUE constraint failed" = true) →
        (createShortLink draw insert longUrl baseUrl).1
          = .error "Failed to generate unique slug after multiple attempts" ∧
        (createShortLink draw insert longUrl baseUrl).2.length = 5) := by
  intro draw insert longUrl baseUrl
  refine ⟨?_, ?_, ?_⟩
  · intro k s h
    have := createLoop_trace_len draw insert baseUrl 5 0 k s h
    simpa using this
  · intro k msg hk hprev hins hnc
    have := createLoop_stops_on_other_error draw insert baseUrl k 5 0 msg hk
      (by simpa using hprev) (by simpa using hins) hnc
    exact this
  · intro hall
    exact createLoop_exhausts draw insert baseUrl 5 0 (by simpa using hall)

/-- Witness for C8: with every insert reporting a uniqueness conflict,
the default five attempts are exhausted and the call fails permanently. -/
theorem createShortLink_retry_spec_witness :
    (createShortLink (fun _ _ => 0) (fun _ => .error "UNIQUE constraint failed: slug")
        "http://long" "http://base").1
      = .error "Failed to generate unique slug after multiple attempts" ∧
    (createShortLink (fun _ _ => 0) (fun _ => .error "UNIQUE constraint failed: slug")
        "http://long" "http://base").2.length = 5 :=
  (createShortLink_retry_spec (fun _ _ => 0)
    (fun _ => .error "UNIQUE constraint failed: slug") "http://long" "http://base").2.2
    (fun j _ => ⟨"UNIQUE constraint failed: slug", rfl, by decide⟩)

end SiteGen
